import Mathlib

/-!
Shallow embedding of the ABCI application of the aleo_lambda_blockchain
repository (src/blockchain/application.rs), together with models of its
collaborators (record store, program store, validator set, wire codec)
that are not part of the sources, reconstructed from the specification.
Definitions come first, then the theorems settling the claims.
-/

/-- Cast of a signed 64-bit integer to an unsigned one, as Rust does with
the expression writing a value with the u64 type annotation. -/
def asU64 (i : Int) : Nat := (i.emod (2 ^ 64)).toNat

/-- Little-endian byte encoding of a natural number on w bytes. -/
def leBytes : Nat → Nat → List Nat
  | 0, _ => []
  | Nat.succ w, n => n % 256 :: leBytes w (n / 256)

/-- Natural number denoted by a little-endian byte list. -/
def fromLE : List Nat → Nat
  | [] => 0
  | b :: bs => b % 256 + 256 * fromLE bs

/-- Reading of a 64-bit unsigned value as a signed one (two-complement). -/
def toI64 (n : Nat) : Int :=
  if n < 2 ^ 63 then (n : Int) else (n : Int) - 2 ^ 64

/-- Modelled from the spec: the bincode encoding of an i64 value (8
little-endian bytes), as written into the abci.height file. -/
def encodeI64 (i : Int) : List Nat := leBytes 8 (asU64 i)

/-- Modelled from the spec: bincode deserialization of an i64 value, which
reads 8 little-endian bytes and tolerates trailing bytes; it fails when
fewer than 8 bytes are available. -/
def decodeI64 (bs : List Nat) : Option Int :=
  if 8 ≤ bs.length then some (toI64 (fromLE (bs.take 8))) else none

/-- An encrypted record: identified by a commitment, spendable through the
serial number derivable from it, carrying an opaque ciphertext payload. -/
structure Rec where
  commitment : Nat
  serial : Nat
  payload : Nat
deriving DecidableEq, Repr

/-- A transition: the unit of execution inside a transaction, naming a
program, input serial numbers, output records and a fee amount. -/
structure Transition where
  program_id : String
  input_serial_numbers : List Nat
  outputs : List Rec
  fee : Int
deriving DecidableEq, Repr

/-- A deployed zero-knowledge program, identified by a stable string id. -/
structure Program where
  id : String
  source : Nat
deriving DecidableEq, Repr

/-- The transaction sum type: a program deployment (with verifying keys
and an optional fee transition) or an execution of a list of transitions. -/
inductive Transaction where
  | deployment (id : String) (program : Program) (verifying_keys : Nat)
      (fee : Option Transition)
  | execution (id : String) (transitions : List Transition)
deriving DecidableEq, Repr

/-- Identifier of a transaction. -/
def Transaction.id : Transaction → String
  | .deployment i _ _ _ => i
  | .execution i _ => i

/-- Modelled from the spec: Transaction.record_serial_numbers, missing from
the sources, collects all input serial numbers of the transaction
(those of the fee transition for a deployment). -/
def Transaction.record_serial_numbers : Transaction → List Nat
  | .deployment _ _ _ (some t) => t.input_serial_numbers
  | .deployment _ _ _ none => []
  | .execution _ ts => ts.flatMap (·.input_serial_numbers)

/-- Output records of a transaction: those of its transitions for an
execution, none for a deployment. -/
def Transaction.output_records : Transaction → List Rec
  | .deployment _ _ _ _ => []
  | .execution _ ts => ts.flatMap (·.outputs)

/-- Modelled from the spec: Transaction.fees, missing from the sources,
is the declared fee of the transaction: the fee of the fee transition for
a deployment (zero when absent), the sum of the transition fees for an
execution. -/
def Transaction.fees : Transaction → Int
  | .deployment _ _ _ (some t) => t.fee
  | .deployment _ _ _ none => 0
  | .execution _ ts => ts.foldl (fun a t => a + t.fee) 0

/-- A record held in the committed layer of the record store, with its
spent flag. -/
structure StoredRecord where
  commitment : Nat
  record : Rec
  spent : Bool
deriving DecidableEq, Repr

/-- Modelled from the spec: the two-layer record store (section 4.1): a
committed map of records with spent flags, plus a staged layer holding
the additions and the spends of the current block. -/
structure RecordStore where
  committed : List StoredRecord
  stagedAdds : List (Nat × Rec)
  stagedSpends : List Nat
deriving DecidableEq, Repr

/-- Whether a serial number refers to a record known to the store
(committed or staged). -/
def RecordStore.known (r : RecordStore) (sn : Nat) : Bool :=
  r.committed.any (fun e => e.record.serial == sn)
    || r.stagedAdds.any (fun p => p.2.serial == sn)

/-- Whether a serial number is marked spent, in the committed layer or in
the staged spends. -/
def RecordStore.spentFlag (r : RecordStore) (sn : Nat) : Bool :=
  r.committed.any (fun e => e.record.serial == sn && e.spent)
    || r.stagedSpends.contains sn

/-- Modelled from the spec: is_unspent consults committed then staged and
answers false for an unknown serial number. -/
def RecordStore.is_unspent (r : RecordStore) (sn : Nat) : Except String Bool :=
  .ok (r.known sn && !r.spentFlag sn)

/-- Modelled from the spec: add inserts a record as unspent into the
staged layer and fails if the commitment already exists, committed or
staged. -/
def RecordStore.add (r : RecordStore) (c : Nat) (rec : Rec) :
    Except String RecordStore :=
  if r.committed.any (fun e => e.commitment == c)
      || r.stagedAdds.any (fun p => p.1 == c) then
    .error "commitment already exists in the record store"
  else
    .ok { r with stagedAdds := r.stagedAdds ++ [(c, rec)] }

/-- Modelled from the spec: spend stages a spent mark for the serial
number and fails if the record is unknown or already spent. -/
def RecordStore.spend (r : RecordStore) (sn : Nat) : Except String RecordStore :=
  if r.known sn && !r.spentFlag sn then
    .ok { r with stagedSpends := r.stagedSpends ++ [sn] }
  else
    .error "record is unknown or already spent"

/-- Modelled from the spec: commit folds the staged layer into the
committed one (staged additions become committed records, staged spends
set the spent flags) and clears staging. -/
def RecordStore.commitStore (r : RecordStore) : Except String RecordStore :=
  .ok { committed :=
          r.committed.map (fun e =>
            { e with spent := e.spent || r.stagedSpends.contains e.record.serial })
          ++ r.stagedAdds.map (fun p =>
            { commitment := p.1, record := p.2,
              spent := r.stagedSpends.contains p.2.serial }),
        stagedAdds := [], stagedSpends := [] }

/-- Modelled from the spec: the program store is an append-only registry
from program id to the program and its verifying keys. -/
structure ProgramStore where
  entries : List (String × Program × Nat)
deriving DecidableEq, Repr

/-- Whether a program id is present in the program store. -/
def ProgramStore.existsId (ps : ProgramStore) (i : String) : Bool :=
  ps.entries.any (fun e => e.1 == i)

/-- Point read of a program and its verifying keys. -/
def ProgramStore.get (ps : ProgramStore) (i : String) : Option (Program × Nat) :=
  (ps.entries.find? (fun e => e.1 == i)).map (·.2)

/-- Modelled from the spec: add fails when the program id exists. -/
def ProgramStore.add (ps : ProgramStore) (i : String) (p : Program) (k : Nat) :
    Except String ProgramStore :=
  if ps.existsId i then
    .error "program id already exists in the program store"
  else
    .ok { entries := ps.entries ++ [(i, p, k)] }

/-- Modelled from the spec: the validator set tracks the persisted
validator entries, the current proposer, the previous-block signers with
their powers, the block height, and the accumulated fee pool. -/
structure ValidatorSet where
  validators : List (String × Int)
  proposer : Option String
  votes : List (String × Nat)
  blockHeight : Nat
  feePool : Nat
deriving DecidableEq, Repr

/-- Modelled from the spec: prepare stores the current proposer, the
previous-block signers, and the block height. -/
def ValidatorSet.prepare (v : ValidatorSet) (p : String)
    (w : List (String × Nat)) (h : Nat) : ValidatorSet :=
  { v with proposer := some p, votes := w, blockHeight := h }

/-- Modelled from the spec: add accumulates a fee into the current block
pool. -/
def ValidatorSet.add (v : ValidatorSet) (fee : Nat) : ValidatorSet :=
  { v with feePool := v.feePool + fee }

/-- External collaborators of the application: the zero-knowledge VM
verification capabilities and the reward minting of the validator set. -/
structure Env where
  verifyDeployment : Program → Nat → Except String Unit
  verifyExecution : Transition → Nat → Except String Unit
  rewards : ValidatorSet → List (Nat × Rec)

/-- Application state threaded through the hooks, generic in the record
store representation: record store, program store, validator set, and the
contents of the abci.height file (none when the file is missing). -/
structure AppStateG (ρ : Type) where
  records : ρ
  programs : ProgramStore
  validators : ValidatorSet
  heightFile : Option (List Nat)
deriving DecidableEq, Repr

/-- Application state over the concrete record store model. -/
abbrev AppState := AppStateG RecordStore

/-- Record store operations the commit hook relies on, kept abstract so
that arbitrary store outcomes (including failures) can be considered. -/
structure RecordOps (ρ : Type) where
  add : ρ → Nat → Rec → Except String ρ
  commitStore : ρ → Except String ρ

/-- The concrete record store operations. -/
def recordOps : RecordOps RecordStore :=
  { add := RecordStore.add, commitStore := RecordStore.commitStore }

/-- Response of the check_tx hook (code, log, info, priority; defaults are
zero and empty). -/
structure ResponseCheckTx where
  code : Nat
  log : String
  info : String
  priority : Int
deriving DecidableEq, Repr

/-- An event attribute (key, value, indexed flag). -/
structure EventAttribute where
  key : String
  value : String
  index : Bool
deriving DecidableEq, Repr

/-- An indexable ABCI event. -/
structure Event where
  type : String
  attributes : List EventAttribute
deriving DecidableEq, Repr

/-- Response of the deliver_tx hook. -/
structure ResponseDeliverTx where
  code : Nat
  log : String
  info : String
  events : List Event
deriving DecidableEq, Repr

/-- Response of the commit hook: app state digest and retain height. -/
structure ResponseCommit where
  data : List Nat
  retain_height : Int
deriving DecidableEq, Repr

/-- Response of the info hook. -/
structure ResponseInfo where
  data : String
  version : String
  app_version : Nat
  last_block_height : Int
  last_block_app_hash : List Nat
deriving DecidableEq, Repr

/-- Validator data attached to a vote. -/
structure Validator where
  address : String
  power : Int
deriving DecidableEq, Repr

/-- Vote info of the previous commit: the validator (when present) and
whether it signed the last block. -/
structure VoteInfo where
  validator : Option Validator
  signed_last_block : Bool
deriving DecidableEq, Repr

/-- Last commit info carried by a begin_block request. -/
structure LastCommitInfo where
  votes : List VoteInfo
deriving DecidableEq, Repr

/-- Block header fields used by the application. -/
structure Header where
  proposer_address : String
  height : Int
deriving DecidableEq, Repr

/-- The begin_block request: an optional header and the vote info of the
previous commit. -/
structure RequestBeginBlock where
  header : Option Header
  last_commit_info : Option LastCommitInfo
deriving DecidableEq, Repr

/-- First element of the list that repeats an earlier element, in the
order the repetitions are encountered (the behaviour of the duplicates
adaptor polled once in check_no_duplicate_records). -/
def firstDuplicateAux (seen : List Nat) : List Nat → Option Nat
  | [] => none
  | x :: xs => if x ∈ seen then some x else firstDuplicateAux (x :: seen) xs

/-- First duplicated element of a list, if any. -/
def firstDuplicate (l : List Nat) : Option Nat := firstDuplicateAux [] l

/-- check_no_duplicate_records: fail if the same record appears more than
once as an input of the transaction. -/
def check_no_duplicate_records (tx : Transaction) : Except String Unit :=
  match firstDuplicate tx.record_serial_numbers with
  | some sn =>
    .error ("record with serial number " ++ toString sn ++ " in transaction "
      ++ tx.id ++ " is duplicate")
  | none => .ok ()

/-- The unwrap_or(true) applied to the result of is_unspent: a store error
is treated as the record being unspent. -/
def unwrapOrTrue : Except String Bool → Bool
  | .ok b => b
  | .error _ => true

/-- check_inputs_are_unspent, generic in the is_unspent operation of the
store: reject the transaction on the first input serial number whose
is_unspent result, defaulted to true on store error, is false. -/
def check_inputs_are_unspent_gen (isU : Nat → Except String Bool)
    (tx : Transaction) : Except String Unit :=
  match tx.record_serial_numbers.find? (fun sn => !(unwrapOrTrue (isU sn))) with
  | some sn =>
    .error ("input record serial number " ++ toString sn
      ++ " is unknown or already spent")
  | none => .ok ()

/-- check_inputs_are_unspent over the concrete record store. -/
def check_inputs_are_unspent (st : AppState) (tx : Transaction) :
    Except String Unit :=
  check_inputs_are_unspent_gen (st.records.is_unspent) tx

/-- verify_transition: look the verifying keys up in the program store and
check the transition with them; fail when the program is unknown. -/
def verify_transition (env : Env) (ps : ProgramStore) (t : Transition) :
    Except String Unit :=
  match ps.get t.program_id with
  | some pk => env.verifyExecution t pk.2
  | none => .error ("Program " ++ t.program_id ++ " does not exist")

/-- Verification of a list of transitions, in order, stopping at the
first failure. -/
def verifyTransitions (env : Env) (ps : ProgramStore) :
    List Transition → Except String Unit
  | [] => .ok ()
  | t :: rest =>
    match verify_transition env ps t with
    | .error e => .error e
    | .ok _ => verifyTransitions env ps rest

/-- validate_transaction: for a deployment, the program id must not exist
(checked before any proof verification), then the fee transition (when
present) and the deployment are verified; for an execution, the
transition list must be non-empty and every transition must verify. -/
def validate_transaction (env : Env) (st : AppState) (tx : Transaction) :
    Except String Unit :=
  match tx with
  | .deployment _ program keys fee =>
    if st.programs.existsId program.id then
      .error ("Program already exists: " ++ program.id)
    else
      match fee with
      | some t =>
        match verify_transition env st.programs t with
        | .error e => .error e
        | .ok _ => env.verifyDeployment program keys
      | none => env.verifyDeployment program keys
  | .execution _ transitions =>
    if transitions.isEmpty then
      .error "There are no transitions in the execution"
    else
      verifyTransitions env st.programs transitions

/-- The validation sequence shared by check_tx and deliver_tx: duplicate
inputs, then unspent inputs, then structural and cryptographic checks. -/
def validateAll (env : Env) (st : AppState) (tx : Transaction) :
    Except String Unit :=
  match check_no_duplicate_records tx with
  | .error e => .error e
  | .ok _ =>
    match check_inputs_are_unspent st tx with
    | .error e => .error e
    | .ok _ => validate_transaction env st tx

/-- spend_input_records: spend each input serial number in order, stopping
at the first error; spends staged before the failing one are kept. -/
def spendAll (r : RecordStore) : List Nat → RecordStore × Except String Unit
  | [] => (r, .ok ())
  | sn :: rest =>
    match r.spend sn with
    | .ok r2 => spendAll r2 rest
    | .error e => (r, .error e)

/-- add_output_records: add each output record as unspent in order,
stopping at the first error; additions staged before the failing one are
kept. -/
def addAll (r : RecordStore) : List Rec → RecordStore × Except String Unit
  | [] => (r, .ok ())
  | rec :: rest =>
    match r.add rec.commitment rec with
    | .ok r2 => addAll r2 rest
    | .error e => (r, .error e)

/-- store_program: insert the program of a deployment into the program
store; executions store nothing. -/
def store_program (ps : ProgramStore) : Transaction → Except String ProgramStore
  | .deployment _ program keys _ => ps.add program.id program keys
  | .execution _ _ => .ok ps

/-- The check_tx hook on a decoded transaction: run the validation
sequence; on success answer with priority equal to the declared fee, on
failure answer with code 1 and the reason in log and info. The state is
returned untouched. -/
def check_tx (env : Env) (st : AppState) (tx : Transaction) :
    ResponseCheckTx × AppState :=
  let priority := tx.fees
  match validateAll env st tx with
  | .error e =>
    ({ code := 1, log := "Could not verify transaction: " ++ e,
       info := "Could not verify transaction: " ++ e, priority := 0 }, st)
  | .ok _ => ({ code := 0, log := "", info := "", priority := priority }, st)

/-- The error response of deliver_tx. -/
def errDeliver (e : String) : ResponseDeliverTx :=
  { code := 1, log := "Error delivering transaction: " ++ e,
    info := "Error delivering transaction: " ++ e, events := [] }

/-- The indexing event emitted by a successful deliver_tx. -/
def appEvent (tx : Transaction) : Event :=
  { type := "app",
    attributes := [{ key := "tx_id", value := tx.id, index := true }] }

/-- The deliver_tx hook on a decoded transaction: re-run the validation
sequence, then in order add the fee to the validator set, stage-spend the
input serial numbers, stage-add the output records and store the program
of a deployment; any failure answers with code 1, keeping whatever was
already staged. -/
def deliver_tx (env : Env) (st : AppState) (tx : Transaction) :
    ResponseDeliverTx × AppState :=
  match validateAll env st tx with
  | .error e => (errDeliver e, st)
  | .ok _ =>
    let st1 : AppState :=
      { st with validators := st.validators.add (asU64 tx.fees) }
    match spendAll st1.records tx.record_serial_numbers with
    | (r2, .error e) => (errDeliver e, { st1 with records := r2 })
    | (r2, .ok _) =>
      match addAll r2 tx.output_records with
      | (r3, .error e) => (errDeliver e, { st1 with records := r3 })
      | (r3, .ok _) =>
        match store_program st1.programs tx with
        | .error e => (errDeliver e, { st1 with records := r3 })
        | .ok ps =>
          ({ code := 0, log := "", info := "", events := [appEvent tx] },
           { st1 with records := r3, programs := ps })

/-- The commit hook, generic in the record store operations so that
arbitrary store failures can be considered: fold the staged layer
(failures only logged, keeping the store as is), read, increment and
persist the block height (fatal when the file is missing or unreadable),
insert each reward record (failures only logged), and answer with an
empty app state digest and retain height zero. -/
def commit_hook_gen {ρ : Type} (R : RecordOps ρ) (env : Env)
    (st : AppStateG ρ) : Except String (ResponseCommit × AppStateG ρ) :=
  let r1 := match R.commitStore st.records with
    | .ok r => r
    | .error _ => st.records
  match st.heightFile with
  | none => .error "panic: could not read the height file"
  | some bytes =>
    match decodeI64 bytes with
    | none => .error "panic: could not decode the height file"
    | some h =>
      let r2 := (env.rewards st.validators).foldl
        (fun r p =>
          match R.add r p.1 p.2 with
          | .ok r2 => r2
          | .error _ => r) r1
      .ok ({ data := [], retain_height := 0 },
           { st with records := r2, heightFile := some (encodeI64 (h + 1)) })

/-- The commit hook over the concrete record store. -/
def commit_hook (env : Env) (st : AppState) :
    Except String (ResponseCommit × AppState) :=
  commit_hook_gen recordOps env st

/-- The begin_block hook: fatal when the request carries no header;
otherwise keep, from the previous-commit votes, the signers of the last
block whose validator data is present, and hand the proposer address,
those signers with their powers, and the block height to the validator
set through prepare. -/
def begin_block (st : AppState) (req : RequestBeginBlock) :
    Except String (Unit × AppState) :=
  match req.header with
  | none => .error "received block without header, aborting"
  | some header =>
    let lcVotes : List VoteInfo :=
      match req.last_commit_info with
      | some lc => lc.votes
      | none => []
    let votes :=
      lcVotes.filterMap
        (fun vi =>
          if !vi.signed_last_block then none
          else
            match vi.validator with
            | some v => some (v.address, asU64 v.power)
            | none => none)
    let h64 := asU64 header.height
    .ok ((),
      { st with validators :=
          st.validators.prepare header.proposer_address votes h64 })

/-- The filtering of previous-commit vote info stated with the words of
the spec: keep only the signers of the previous block that come with a
present validator entry, paired with their powers. -/
def specFilterSigners (req : RequestBeginBlock) : List (String × Nat) :=
  let lcVotes : List VoteInfo :=
    match req.last_commit_info with
    | some lc => lc.votes
    | none => []
  lcVotes.filterMap
    (fun vi =>
      match vi.validator with
      | some v =>
        if vi.signed_last_block then some (v.address, asU64 v.power) else none
      | none => none)

/-- The info hook: read the height file, creating it at height zero when
it is missing; fatal when its contents do not decode; answer with the
static identity, the height read, and an empty last block app hash. -/
def info_hook (st : AppState) : Except String (ResponseInfo × AppState) :=
  match st.heightFile with
  | some bytes =>
    match decodeI64 bytes with
    | some h =>
      .ok ({ data := "snarkvm-app", version := "0.1.0", app_version := 1,
             last_block_height := h, last_block_app_hash := [] }, st)
    | none => .error "Contents of height file are not readable"
  | none =>
    .ok ({ data := "snarkvm-app", version := "0.1.0", app_version := 1,
           last_block_height := 0, last_block_app_hash := [] },
         { st with heightFile := some (encodeI64 0) })

/-- Reading of a fixed number of bytes from the head of the input. -/
def dBytes (w : Nat) (bs : List Nat) : Option (List Nat × List Nat) :=
  if w ≤ bs.length then some (bs.take w, bs.drop w) else none

/-- Reading of a u64 value (8 little-endian bytes). -/
def dU64 (bs : List Nat) : Option (Nat × List Nat) :=
  (dBytes 8 bs).map (fun p => (fromLE p.1, p.2))

/-- Reading of an i64 value (8 little-endian bytes, two-complement). -/
def dI64 (bs : List Nat) : Option (Int × List Nat) :=
  (dBytes 8 bs).map (fun p => (toI64 (fromLE p.1), p.2))

/-- Reading of a string: a u64 length followed by that many bytes. -/
def dString (bs : List Nat) : Option (String × List Nat) :=
  (dU64 bs).bind (fun p =>
    (dBytes p.1 p.2).map (fun q => (String.mk (q.1.map Char.ofNat), q.2)))

/-- Reading of a fixed count of consecutive elements. -/
def dRepeat {α : Type} (d : List Nat → Option (α × List Nat)) :
    Nat → List Nat → Option (List α × List Nat)
  | 0, bs => some ([], bs)
  | Nat.succ k, bs =>
    (d bs).bind (fun p =>
      (dRepeat d k p.2).map (fun q => (p.1 :: q.1, q.2)))

/-- Reading of a sequence: a u64 length followed by the elements. -/
def dSeq {α : Type} (d : List Nat → Option (α × List Nat))
    (bs : List Nat) : Option (List α × List Nat) :=
  (dU64 bs).bind (fun p => dRepeat d p.1 p.2)

/-- Reading of an optional value: a one-byte tag then the value. -/
def dOpt {α : Type} (d : List Nat → Option (α × List Nat)) :
    List Nat → Option (Option α × List Nat)
  | [] => none
  | b :: bs =>
    if b == 0 then some (none, bs)
    else if b == 1 then (d bs).map (fun p => (some p.1, p.2))
    else none

/-- Reading of a record (commitment, serial number, payload). -/
def dRec (bs : List Nat) : Option (Rec × List Nat) :=
  (dU64 bs).bind (fun p1 =>
    (dU64 p1.2).bind (fun p2 =>
      (dU64 p2.2).map (fun p3 =>
        ({ commitment := p1.1, serial := p2.1, payload := p3.1 }, p3.2))))

/-- Reading of a transition. -/
def dTransition (bs : List Nat) : Option (Transition × List Nat) :=
  (dString bs).bind (fun p1 =>
    (dSeq dU64 p1.2).bind (fun p2 =>
      (dSeq dRec p2.2).bind (fun p3 =>
        (dI64 p3.2).map (fun p4 =>
          ({ program_id := p1.1, input_serial_numbers := p2.1,
             outputs := p3.1, fee := p4.1 }, p4.2)))))

/-- Reading of a program (id and opaque source). -/
def dProgram (bs : List Nat) : Option (Program × List Nat) :=
  (dString bs).bind (fun p1 =>
    (dU64 p1.2).map (fun p2 => ({ id := p1.1, source := p2.1 }, p2.2)))

/-- Modelled from the spec: bincode deserialization of the Transaction
wire format (a four-byte variant tag followed by the fields); it is
partial and fails on byte strings that are not valid encodings, the empty
one among them. -/
def decodeTxFull (bs : List Nat) : Option (Transaction × List Nat) :=
  (dBytes 4 bs).bind (fun ptag =>
    let tag := fromLE ptag.1
    if tag == 0 then
      (dString ptag.2).bind (fun pid =>
        (dProgram pid.2).bind (fun pprog =>
          (dU64 pprog.2).bind (fun pk =>
            (dOpt dTransition pk.2).map (fun pfee =>
              (Transaction.deployment pid.1 pprog.1 pk.1 pfee.1, pfee.2)))))
    else if tag == 1 then
      (dString ptag.2).bind (fun pid =>
        (dSeq dTransition pid.2).map (fun pts =>
          (Transaction.execution pid.1 pts.1, pts.2)))
    else none)

/-- Decoding of a transaction from request bytes. -/
def decodeTx (bs : List Nat) : Option Transaction :=
  (decodeTxFull bs).map (·.1)

/-- The check_tx hook on raw request bytes: decoding failures panic
instead of producing a rejection response. -/
def check_tx_raw (env : Env) (st : AppState) (bs : List Nat) :
    Except String (ResponseCheckTx × AppState) :=
  match decodeTx bs with
  | none => .error "panic: could not deserialize the transaction bytes"
  | some tx => .ok (check_tx env st tx)

/-- The deliver_tx hook on raw request bytes: decoding failures panic
instead of producing a rejection response. -/
def deliver_tx_raw (env : Env) (st : AppState) (bs : List Nat) :
    Except String (ResponseDeliverTx × AppState) :=
  match decodeTx bs with
  | none => .error "panic: could not deserialize the transaction bytes"
  | some tx => .ok (deliver_tx env st tx)

/-- An empty validator set. -/
def vset0 : ValidatorSet :=
  { validators := [], proposer := none, votes := [], blockHeight := 0,
    feePool := 0 }

/-- An empty record store. -/
def rstore0 : RecordStore :=
  { committed := [], stagedAdds := [], stagedSpends := [] }

/-- An empty program store. -/
def pstore0 : ProgramStore := { entries := [] }

/-- An environment whose verifiers accept and that mints no rewards. -/
def env0 : Env :=
  { verifyDeployment := fun _ _ => .ok (),
    verifyExecution := fun _ _ => .ok (),
    rewards := fun _ => [] }

/-- A fresh application state at height zero. -/
def st0 : AppState :=
  { records := rstore0, programs := pstore0, validators := vset0,
    heightFile := some (encodeI64 0) }

/-- A committed input record with serial number 1. -/
def c1InputRec : Rec := { commitment := 20, serial := 1, payload := 0 }

/-- An output record with commitment 10. -/
def c1Out1 : Rec := { commitment := 10, serial := 5, payload := 0 }

/-- A second output record with the same commitment 10. -/
def c1Out2 : Rec := { commitment := 10, serial := 6, payload := 0 }

/-- A deployed program named prog. -/
def c1Prog : Program := { id := "prog", source := 0 }

/-- An execution spending serial number 1 and producing two outputs that
share a commitment, so that staging the second output fails after the
input was already stage-spent. -/
def c1Tx : Transaction :=
  .execution "t1"
    [{ program_id := "prog", input_serial_numbers := [1],
       outputs := [c1Out1, c1Out2], fee := 7 }]

/-- A state holding the unspent committed record of serial number 1 and
the program prog. -/
def c1St : AppState :=
  { records := { committed := [{ commitment := 20, record := c1InputRec,
                                 spent := false }],
                 stagedAdds := [], stagedSpends := [] },
    programs := { entries := [("prog", c1Prog, 0)] },
    validators := vset0, heightFile := some (encodeI64 0) }

/-- A reward record with commitment 30. -/
def c2Rec : Rec := { commitment := 30, serial := 9, payload := 0 }

/-- An environment minting one reward record at commit. -/
def c2Env : Env :=
  { verifyDeployment := fun _ _ => .ok (),
    verifyExecution := fun _ _ => .ok (),
    rewards := fun _ => [(30, c2Rec)] }

/-- An execution whose only transition lists serial number 4 twice. -/
def c3Tx : Transaction :=
  .execution "t3"
    [{ program_id := "p", input_serial_numbers := [4, 4], outputs := [],
       fee := 0 }]

/-- An output record with commitment 40. -/
def c5Out : Rec := { commitment := 40, serial := 8, payload := 0 }

/-- An execution of prog spending serial number 1 and producing one fresh
output, accepted end to end on the state c1St. -/
def c5Tx : Transaction :=
  .execution "t5"
    [{ program_id := "prog", input_serial_numbers := [1],
       outputs := [c5Out], fee := 2 }]

/-- A program named hello. -/
def c6Prog : Program := { id := "hello", source := 1 }

/-- A deployment of hello without a fee transition. -/
def c6Tx : Transaction := .deployment "d1" c6Prog 0 none

/-- A second deployment of hello under a different transaction id. -/
def c6Tx2 : Transaction := .deployment "d2" c6Prog 3 none

/-- A store access that always fails. -/
def c9ErrU : Nat → Except String Bool := fun _ => .error "store failure"

/-- A store access that always answers spent. -/
def c9FalseU : Nat → Except String Bool := fun _ => .ok false

/-- An execution with a single input serial number 3. -/
def c9Tx : Transaction :=
  .execution "t9"
    [{ program_id := "p", input_serial_numbers := [3], outputs := [],
       fee := 0 }]

/-- A state whose height file holds three bytes and cannot decode. -/
def c10BadSt : AppState := { st0 with heightFile := some [1, 2, 3] }

/-- A state with no height file. -/
def c10NoFileSt : AppState := { st0 with heightFile := none }

/-- A begin_block request with a header at height 3 and three votes: a
signer with validator data, a non-signer, and a signer without validator
data. -/
def c8Req : RequestBeginBlock :=
  { header := some { proposer_address := "A", height := 3 },
    last_commit_info := some
      { votes := [{ validator := some { address := "B", power := 2 },
                    signed_last_block := true },
                  { validator := some { address := "C", power := 5 },
                    signed_last_block := false },
                  { validator := none, signed_last_block := true }] } }

/-- A begin_block request without a header. -/
def c8ReqNoHeader : RequestBeginBlock :=
  { header := none, last_commit_info := none }

theorem spend_committed_eq {r r2 : RecordStore} {sn : Nat}
    (h : r.spend sn = .ok r2) : r2.committed = r.committed := by
  unfold RecordStore.spend at h
  split at h
  · injection h with h2
    subst h2
    rfl
  · exact Except.noConfusion h

theorem add_committed_eq {r r2 : RecordStore} {c : Nat} {rec : Rec}
    (h : r.add c rec = .ok r2) : r2.committed = r.committed := by
  unfold RecordStore.add at h
  split at h
  · exact Except.noConfusion h
  · injection h with h2
    subst h2
    rfl

theorem spendAll_committed (l : List Nat) :
    ∀ r : RecordStore, ((spendAll r l).1).committed = r.committed := by
  induction l with
  | nil => intro r; rfl
  | cons sn rest ih =>
    intro r
    unfold spendAll
    rcases hs : r.spend sn with e | r2
    · rfl
    · simpa [hs, ih r2] using spend_committed_eq hs

theorem addAll_committed (l : List Rec) :
    ∀ r : RecordStore, ((addAll r l).1).committed = r.committed := by
  induction l with
  | nil => intro r; rfl
  | cons rec rest ih =>
    intro r
    unfold addAll
    rcases ha : r.add rec.commitment rec with e | r2
    · rfl
    · simpa [ha, ih r2] using add_committed_eq ha

theorem existsId_add {ps ps2 : ProgramStore} {i : String} {p : Program}
    {k : Nat} (h : ps.add i p k = .ok ps2) : ps2.existsId i = true := by
  unfold ProgramStore.add at h
  split at h
  · exact Except.noConfusion h
  · injection h with h2
    subst h2
    unfold ProgramStore.existsId
    simp

theorem err_log_already_exists (p : String) :
    "Error delivering transaction: " ++ ("Program already exists: " ++ p)
      = "Error delivering transaction: Program "
        ++ ("already exists" ++ (": " ++ p)) := by
  rw [← String.append_assoc, ← String.append_assoc, ← String.append_assoc]
  exact congrArg (fun s => s ++ p) (by rfl)

/-- C4: there is an input byte string (the empty one) that does not decode
as a Transaction, on which check_tx and deliver_tx terminate fatally
(panic) instead of returning a response with nonzero code: decoding
errors on transaction bytes are fatal. -/
theorem c4_decode_failure_fatal :
    decodeTx [] = none
  ∧ check_tx_raw env0 st0 []
      = .error "panic: could not deserialize the transaction bytes"
  ∧ deliver_tx_raw env0 st0 []
      = .error "panic: could not deserialize the transaction bytes" :=
  ⟨rfl, rfl, rfl⟩

/-- C9: check_inputs_are_unspent rejects a transaction only for input
serial numbers on which is_unspent answers Ok(false); an is_unspent
store error is defaulted to true (unspent) and never causes a failure, so
a store on which every lookup fails makes the check pass. -/
theorem c9_is_unspent_error_tolerated :
    (∀ (isU : Nat → Except String Bool) (tx : Transaction) (e : String),
      check_inputs_are_unspent_gen isU tx = .error e →
      ∃ sn, sn ∈ tx.record_serial_numbers ∧ isU sn = .ok false)
  ∧ (∀ (m : String) (tx : Transaction),
      check_inputs_are_unspent_gen (fun _ => .error m) tx = .ok ()) := by
  constructor
  · intro isU tx e h
    unfold check_inputs_are_unspent_gen at h
    split at h
    · next sn hfind =>
      refine ⟨sn, List.mem_of_find?_eq_some hfind, ?_⟩
      have hp := List.find?_some hfind
      rcases hu : isU sn with m | b
      · rw [hu] at hp
        simp [unwrapOrTrue] at hp
      · rw [hu] at hp
        simp [unwrapOrTrue] at hp
        rw [hp]
    · exact Except.noConfusion h
  · intro m tx
    unfold check_inputs_are_unspent_gen
    rw [show (tx.record_serial_numbers.find?
        (fun sn => !(unwrapOrTrue ((fun _ => Except.error m) sn)))) = none from
      List.find?_eq_none.2 (by intro x hx; simp [unwrapOrTrue])]

/-- C10: when the height file is missing, the info hook creates it at
height zero and answers last_block_height zero with an empty last block
app hash; when the file exists but its contents do not decode, the
process terminates fatally. -/
theorem c10_info_height_file :
    (∀ st : AppState, st.heightFile = none →
      info_hook st =
        .ok ({ data := "snarkvm-app", version := "0.1.0", app_version := 1,
               last_block_height := 0, last_block_app_hash := [] },
             { st with heightFile := some (encodeI64 0) }))
  ∧ (∀ (st : AppState) (bs : List Nat), st.heightFile = some bs →
      decodeI64 bs = none →
      info_hook st = .error "Contents of height file are not readable") := by
  constructor
  · intro st h
    simp [info_hook, h]
  · intro st bs h hd
    simp [info_hook, h, hd]

/-- Witness for C10: the two hypotheses are satisfiable, at a state with
no height file and at one whose height file holds three bytes. -/
theorem c10_witness :
    info_hook c10NoFileSt =
      .ok ({ data := "snarkvm-app", version := "0.1.0", app_version := 1,
             last_block_height := 0, last_block_app_hash := [] },
           { c10NoFileSt with heightFile := some (encodeI64 0) })
  ∧ info_hook c10BadSt = .error "Contents of height file are not readable" :=
  ⟨c10_info_height_file.1 c10NoFileSt rfl,
   c10_info_height_file.2 c10BadSt [1, 2, 3] rfl rfl⟩

/-- Witness for C9: the rejection hypothesis is satisfied by a store
answering Ok(false), and a store whose every lookup errors makes the
check pass. -/
theorem c9_witness :
    (∃ sn, sn ∈ c9Tx.record_serial_numbers ∧ c9FalseU sn = .ok false)
  ∧ check_inputs_are_unspent_gen c9ErrU c9Tx = .ok () :=
  ⟨c9_is_unspent_error_tolerated.1 c9FalseU c9Tx
      "input record serial number 3 is unknown or already spent" rfl,
   c9_is_unspent_error_tolerated.2 "store failure" c9Tx⟩

/-- C7: check_tx returns the state untouched; when the validation
sequence succeeds the response priority equals the declared fee of the
transaction; when it fails the response has code 1 with the reason in
log and info. -/
theorem c7_check_tx_stateless :
    (∀ (env : Env) (st : AppState) (tx : Transaction),
      (check_tx env st tx).2 = st)
  ∧ (∀ (env : Env) (st : AppState) (tx : Transaction),
      validateAll env st tx = .ok () →
      (check_tx env st tx).1 =
        { code := 0, log := "", info := "", priority := tx.fees })
  ∧ (∀ (env : Env) (st : AppState) (tx : Transaction) (e : String),
      validateAll env st tx = .error e →
      (check_tx env st tx).1 =
        { code := 1, log := "Could not verify transaction: " ++ e,
          info := "Could not verify transaction: " ++ e, priority := 0 }) := by
  refine ⟨?_, ?_, ?_⟩
  · intro env st tx
    rcases h : validateAll env st tx with e | u <;> simp [check_tx, h]
  · intro env st tx h
    simp [check_tx, h]
  · intro env st tx e h
    simp [check_tx, h]

/-- Witness for C7: the success hypothesis is satisfied by an accepted
execution, whose priority is its fee of 2, and the failure hypothesis by
a transaction with a duplicate input. -/
theorem c7_witness :
    (check_tx env0 c1St c5Tx).1 =
      { code := 0, log := "", info := "", priority := c5Tx.fees }
  ∧ (check_tx env0 st0 c3Tx).1 =
      { code := 1,
        log := "Could not verify transaction: "
          ++ "record with serial number 4 in transaction t3 is duplicate",
        info := "Could not verify transaction: "
          ++ "record with serial number 4 in transaction t3 is duplicate",
        priority := 0 } :=
  ⟨c7_check_tx_stateless.2.1 env0 c1St c5Tx rfl,
   c7_check_tx_stateless.2.2 env0 st0 c3Tx
     "record with serial number 4 in transaction t3 is duplicate" rfl⟩

theorem filter_votes_eq (l : List VoteInfo) :
    l.filterMap
      (fun vi =>
        if !vi.signed_last_block then none
        else
          match vi.validator with
          | some v => some (v.address, asU64 v.power)
          | none => none)
  = l.filterMap
      (fun vi =>
        match vi.validator with
        | some v =>
          if vi.signed_last_block then some (v.address, asU64 v.power)
          else none
        | none => none) := by
  have h : (fun (vi : VoteInfo) =>
        if !vi.signed_last_block then none
        else
          match vi.validator with
          | some v => some (v.address, asU64 v.power)
          | none => none)
      = (fun (vi : VoteInfo) =>
        match vi.validator with
        | some v =>
          if vi.signed_last_block then some (v.address, asU64 v.power)
          else none
        | none => none) := by
    funext vi
    rcases vi with ⟨val, sb⟩
    cases sb <;> cases val <;> rfl
  rw [h]

/-- C8: begin_block is fatal when the request has no header; otherwise it
hands the proposer address, the previous-commit signers filtered to those
that signed the last block and carry validator data (with their powers),
and the block height to the validator set through prepare. -/
theorem c8_begin_block_prepare :
    (∀ (st : AppState) (req : RequestBeginBlock), req.header = none →
      begin_block st req = .error "received block without header, aborting")
  ∧ (∀ (st : AppState) (req : RequestBeginBlock) (h : Header),
      req.header = some h →
      begin_block st req =
        .ok ((), { st with validators := st.validators.prepare h.proposer_address (specFilterSigners req) (asU64 h.height) })) := by
  constructor
  · intro st req h
    simp [begin_block, h]
  · intro st req h hh
    simp only [begin_block, hh, specFilterSigners]
    rw [filter_votes_eq]

/-- Witness for C8: the two hypotheses are satisfiable, on a request
without a header and on one with a header at height 3 whose votes keep
only the signer with validator data. -/
theorem c8_witness :
    begin_block st0 c8ReqNoHeader
      = .error "received block without header, aborting"
  ∧ begin_block st0 c8Req
      = .ok ((), { st0 with validators := vset0.prepare "A" [("B", 2)] 3 }) :=
  ⟨c8_begin_block_prepare.1 st0 c8ReqNoHeader rfl,
   (c8_begin_block_prepare.2 st0 c8Req
      { proposer_address := "A", height := 3 } rfl).trans (by rfl)⟩

/-- C3: the validation sequence checks, in order and short-circuiting at
the first failure: duplicate input serial numbers (failing with a
duplicate reason on the first repeat, whatever the store or the proof
verifiers), then unspent inputs, then the structural and cryptographic
checks of validate_transaction; and both check_tx and deliver_tx run this
same sequence. -/
theorem c3_validation_order :
    (∀ (env : Env) (st : AppState) (tx : Transaction) (sn : Nat),
      firstDuplicate tx.record_serial_numbers = some sn →
      validateAll env st tx =
        .error ("record with serial number " ++ toString sn
          ++ " in transaction " ++ tx.id ++ " is duplicate"))
  ∧ (∀ (env : Env) (st : AppState) (tx : Transaction) (sn : Nat),
      firstDuplicate tx.record_serial_numbers = none →
      tx.record_serial_numbers.find?
          (fun s => !(unwrapOrTrue (st.records.is_unspent s))) = some sn →
      validateAll env st tx =
        .error ("input record serial number " ++ toString sn
          ++ " is unknown or already spent"))
  ∧ (∀ (env : Env) (st : AppState) (tx : Transaction),
      firstDuplicate tx.record_serial_numbers = none →
      tx.record_serial_numbers.find?
          (fun s => !(unwrapOrTrue (st.records.is_unspent s))) = none →
      validateAll env st tx = validate_transaction env st tx)
  ∧ (∀ (env : Env) (st : AppState) (tx : Transaction),
      (check_tx env st tx).1.code =
        match validateAll env st tx with
        | .ok _ => 0
        | .error _ => 1)
  ∧ (∀ (env : Env) (st : AppState) (tx : Transaction) (e : String),
      validateAll env st tx = .error e →
      deliver_tx env st tx = (errDeliver e, st)) := by
  refine ⟨?_, ?_, ?_, ?_, ?_⟩
  · intro env st tx sn h
    simp [validateAll, check_no_duplicate_records, h]
  · intro env st tx sn hdup hfind
    simp [validateAll, check_no_duplicate_records, hdup,
      check_inputs_are_unspent, check_inputs_are_unspent_gen, hfind]
  · intro env st tx hdup hfind
    simp [validateAll, check_no_duplicate_records, hdup,
      check_inputs_are_unspent, check_inputs_are_unspent_gen, hfind]
  · intro env st tx
    rcases h : validateAll env st tx with e | u <;> simp [check_tx, h]
  · intro env st tx e h
    simp [deliver_tx, h]

/-- Witness for C3: the hypotheses are satisfiable on a transaction whose
input serial number 4 repeats, and the two hooks answer through the same
failed validation. -/
theorem c3_witness :
    validateAll env0 st0 c3Tx =
      .error "record with serial number 4 in transaction t3 is duplicate"
  ∧ deliver_tx env0 st0 c3Tx =
      (errDeliver "record with serial number 4 in transaction t3 is duplicate",
       st0) := by
  have h1 := c3_validation_order.1 env0 st0 c3Tx 4 rfl
  have h1c : validateAll env0 st0 c3Tx =
      .error "record with serial number 4 in transaction t3 is duplicate" :=
    h1.trans (by rfl)
  exact ⟨h1c, c3_validation_order.2.2.2.2 env0 st0 c3Tx _ h1c⟩

/-- Counterexample for C1: a deliver_tx that fails (code 1) after staging
mutations leaves the application state different from what it was before
the call, against the claim that the state is as it was. -/
theorem c1_counterexample :
    (deliver_tx env0 c1St c1Tx).1.code = 1
  ∧ (deliver_tx env0 c1St c1Tx).2 ≠ c1St := by
  exact ⟨by rfl, by decide⟩

/-- C1 amended: a deliver_tx that returns nonzero code leaves the
committed layer of the record store unchanged (every mutation goes to
staging), but partial staged effects of the transaction may remain, since
no sub-scope rollback is performed: on the concrete failing run, the fee
was accumulated, the input stays stage-spent and the first output stays
stage-added. -/
theorem c1_committed_layer_preserved :
    (∀ (env : Env) (st : AppState) (tx : Transaction),
      ((deliver_tx env st tx).2).records.committed = st.records.committed)
  ∧ (deliver_tx env0 c1St c1Tx).1.code = 1
  ∧ (deliver_tx env0 c1St c1Tx).2.records.stagedSpends = [1]
  ∧ (deliver_tx env0 c1St c1Tx).2.records.stagedAdds = [(10, c1Out1)]
  ∧ (deliver_tx env0 c1St c1Tx).2.validators.feePool = 7 := by
  refine ⟨?_, by rfl, by rfl, by rfl, by rfl⟩
  intro env st tx
  rcases hv : validateAll env st tx with e | u
  · simp [deliver_tx, hv]
  · simp only [deliver_tx, hv]
    rcases hs : spendAll st.records tx.record_serial_numbers with ⟨r2, res2⟩
    have hr2 : r2.committed = st.records.committed := by
      have h2 := spendAll_committed tx.record_serial_numbers st.records
      rw [hs] at h2
      exact h2
    rcases res2 with e2 | u2
    · simp [hs, hr2]
    · rcases ha : addAll r2 tx.output_records with ⟨r3, res3⟩
      have hr3 : r3.committed = st.records.committed := by
        have h3 := addAll_committed tx.output_records r2
        rw [ha] at h3
        exact h3.trans hr2
      rcases res3 with e3 | u3
      · simp [hs, ha, hr3]
      · rcases hp : store_program st.programs tx with e4 | ps
        · simp [hs, ha, hp, hr3]
        · simp [hs, ha, hp, hr3]

/-- C2 amended: every commit call, whatever the record store operations
do (failures are only logged), performs in order: fold the staged layer
of the record store into the committed one (keeping the store as is when
that fails), increment and persist the block height by exactly one, and
insert each reward record of validator_set.rewards() into the record
store through its add operation (ignoring per-record failures); the
response always comes back, with an empty app state digest. -/
theorem c2_commit_behavior :
    ∀ (ρ : Type) (R : RecordOps ρ) (env : Env) (st : AppStateG ρ)
      (bytes : List Nat) (h : Int),
      st.heightFile = some bytes → decodeI64 bytes = some h →
      commit_hook_gen R env st =
        .ok ({ data := [], retain_height := 0 },
             { st with
                 records := (env.rewards st.validators).foldl
                   (fun r p =>
                     match R.add r p.1 p.2 with
                     | .ok r2 => r2
                     | .error _ => r)
                   (match R.commitStore st.records with
                    | .ok r => r
                    | .error _ => st.records),
                 heightFile := some (encodeI64 (h + 1)) }) := by
  intro ρ R env st bytes h hf hd
  simp only [commit_hook_gen, hf, hd]

/-- Witness for C2: on the concrete store with a fresh state at height
zero and an environment minting one reward record, the hypotheses hold
and commit answers with the empty digest, the height file at one, and
the reward record staged in the store. -/
theorem c2_witness :
    commit_hook c2Env st0 =
      .ok ({ data := [], retain_height := 0 },
           { st0 with
               records := { committed := [], stagedAdds := [(30, c2Rec)],
                            stagedSpends := [] },
               heightFile := some (encodeI64 1) }) :=
  (c2_commit_behavior RecordStore recordOps c2Env st0 (encodeI64 0) 0 rfl
    rfl).trans (by rfl)

/-- Counterexample for C2: the reward record inserted at commit is not in
the committed layer of the record store; it sits in the staged layer (it
only materializes at the next commit), against the claim that rewards
are inserted as committed. -/
theorem c2_counterexample :
    ((commit_hook c2Env st0).toOption.map
        (fun p => p.2.records.committed)) = some []
  ∧ ((commit_hook c2Env st0).toOption.map
        (fun p => p.2.records.stagedAdds)) = some [(30, c2Rec)] :=
  ⟨rfl, rfl⟩

/-- C5: when validation passes, deliver_tx applies the effects in order:
add the fee of the transaction to the validator set, stage-spend each
input serial number, stage-add each output record, store the program of a
deployment; and every success response carries exactly one event of type
app whose single indexed attribute tx_id is the id of the transaction. -/
theorem c5_deliver_success_effects :
    (∀ (env : Env) (st : AppState) (tx : Transaction) (r2 r3 : RecordStore)
       (ps : ProgramStore),
      validateAll env st tx = .ok () →
      spendAll st.records tx.record_serial_numbers = (r2, .ok ()) →
      addAll r2 tx.output_records = (r3, .ok ()) →
      store_program st.programs tx = .ok ps →
      deliver_tx env st tx =
        ({ code := 0, log := "", info := "", events := [appEvent tx] },
         { records := r3, programs := ps,
           validators := st.validators.add (asU64 tx.fees),
           heightFile := st.heightFile }))
  ∧ (∀ (env : Env) (st : AppState) (tx : Transaction),
      (deliver_tx env st tx).1.code = 0 →
      (deliver_tx env st tx).1.events = [appEvent tx]) := by
  constructor
  · intro env st tx r2 r3 ps hv hs ha hp
    simp [deliver_tx, hv, hs, ha, hp]
  · intro env st tx
    rcases hv : validateAll env st tx with e | u
    · simp [deliver_tx, hv, errDeliver]
    · simp only [deliver_tx, hv]
      rcases hs : spendAll st.records tx.record_serial_numbers with ⟨r2, res2⟩
      rcases res2 with e2 | u2
      · simp [hs, errDeliver]
      · rcases ha : addAll r2 tx.output_records with ⟨r3, res3⟩
        rcases res3 with e3 | u3
        · simp [hs, ha, errDeliver]
        · rcases hp : store_program st.programs tx with e4 | ps
          · simp [hs, ha, hp, errDeliver]
          · simp [hs, ha, hp]

/-- Witness for C5: the hypotheses are satisfiable on an accepted
execution; its delivery stage-spends the input, stage-adds the output,
accumulates the fee of 2, and answers with the single app event. -/
theorem c5_witness :
    deliver_tx env0 c1St c5Tx =
      ({ code := 0, log := "", info := "", events := [appEvent c5Tx] },
       { records := { committed := c1St.records.committed,
                      stagedAdds := [(40, c5Out)], stagedSpends := [1] },
         programs := c1St.programs,
         validators := c1St.validators.add (asU64 c5Tx.fees),
         heightFile := c1St.heightFile }) :=
  c5_deliver_success_effects.1 env0 c1St c5Tx
    { committed := c1St.records.committed, stagedAdds := [],
      stagedSpends := [1] }
    { committed := c1St.records.committed, stagedAdds := [(40, c5Out)],
      stagedSpends := [1] }
    c1St.programs rfl rfl rfl rfl

/-- C6: a deployment whose program id already exists is rejected by
validation before any proof verification (whatever the verifiers of the
environment), deliver_tx answers code 1 with a reason containing the
words already exists, and a successful deployment leaves the program id
present in the store, so later deployments with the same id are
rejected. -/
theorem c6_double_deploy_rejected :
    (∀ (env : Env) (st : AppState) (i : String) (prog : Program) (k : Nat)
       (fee : Option Transition),
      st.programs.existsId prog.id = true →
      validate_transaction env st (.deployment i prog k fee) =
        .error ("Program already exists: " ++ prog.id))
  ∧ (∀ (env : Env) (st : AppState) (i : String) (prog : Program) (k : Nat)
       (fee : Option Transition),
      firstDuplicate
          (Transaction.record_serial_numbers (.deployment i prog k fee))
        = none →
      (Transaction.record_serial_numbers (.deployment i prog k fee)).find?
          (fun s => !(unwrapOrTrue (st.records.is_unspent s))) = none →
      st.programs.existsId prog.id = true →
      (deliver_tx env st (.deployment i prog k fee)).1.code = 1 ∧
      ∃ a b, (deliver_tx env st (.deployment i prog k fee)).1.log
        = a ++ ("already exists" ++ b))
  ∧ (∀ (env : Env) (st : AppState) (i : String) (prog : Program) (k : Nat)
       (fee : Option Transition) (resp : ResponseDeliverTx) (st2 : AppState),
      deliver_tx env st (.deployment i prog k fee) = (resp, st2) →
      resp.code = 0 → st2.programs.existsId prog.id = true) := by
  refine ⟨?_, ?_, ?_⟩
  · intro env st i prog k fee hex
    simp [validate_transaction, hex]
  · intro env st i prog k fee hdup hfind hex
    have hval : validateAll env st (.deployment i prog k fee) =
        .error ("Program already exists: " ++ prog.id) := by
      simp [validateAll, check_no_duplicate_records, hdup,
        check_inputs_are_unspent, check_inputs_are_unspent_gen, hfind,
        validate_transaction, hex]
    have hdel : deliver_tx env st (.deployment i prog k fee) =
        (errDeliver ("Program already exists: " ++ prog.id), st) := by
      simp [deliver_tx, hval]
    rw [hdel]
    exact ⟨rfl, "Error delivering transaction: Program ", ": " ++ prog.id,
      err_log_already_exists prog.id⟩
  · intro env st i prog k fee resp st2 hdel hcode
    rcases hv : validateAll env st (.deployment i prog k fee) with e | u
    · simp only [deliver_tx, hv] at hdel
      injection hdel with h1 h2
      rw [← h1] at hcode
      simp [errDeliver] at hcode
    · rcases hs : spendAll st.records
          (Transaction.record_serial_numbers (.deployment i prog k fee))
        with ⟨r2, res2⟩
      rcases res2 with e2 | u2
      · simp only [deliver_tx, hv, hs] at hdel
        injection hdel with h1 h2
        rw [← h1] at hcode
        simp [errDeliver] at hcode
      · rcases ha : addAll r2
            (Transaction.output_records (.deployment i prog k fee))
          with ⟨r3, res3⟩
        rcases res3 with e3 | u3
        · simp only [deliver_tx, hv, hs, ha] at hdel
          injection hdel with h1 h2
          rw [← h1] at hcode
          simp [errDeliver] at hcode
        · rcases hp : store_program st.programs (.deployment i prog k fee)
            with e4 | ps
          · simp only [deliver_tx, hv, hs, ha, hp] at hdel
            injection hdel with h1 h2
            rw [← h1] at hcode
            simp [errDeliver] at hcode
          · simp only [deliver_tx, hv, hs, ha, hp] at hdel
            injection hdel with h1 h2
            unfold store_program at hp
            have hex2 := existsId_add hp
            rw [← h2]
            exact hex2

/-- Witness for C6: deploying hello on a fresh state succeeds, and a
second deployment of hello on the resulting state is rejected with code 1
and a reason containing the words already exists. -/
theorem c6_witness :
    (deliver_tx env0 (deliver_tx env0 st0 c6Tx).2 c6Tx2).1.code = 1
  ∧ ∃ a b, (deliver_tx env0 (deliver_tx env0 st0 c6Tx).2 c6Tx2).1.log
      = a ++ ("already exists" ++ b) :=
  c6_double_deploy_rejected.2.1 env0 (deliver_tx env0 st0 c6Tx).2 "d2" c6Prog
    3 none rfl rfl (by rfl)
